import Mathlib

/-!
Verification of the download/convert status-tracking core of the arXiv MCP
server (`src/arxiv_mcp_server/tools/download.py`).

The Python module is embedded shallowly:

* The process state (`conversion_statuses` dict, the storage directory's
  files, the wall clock) is a `World`.  File contents and the status map are
  association lists mirroring Python dict semantics (insert appends, update
  replaces in place).
* `datetime.now()` is a monotone clock: each call reads `World.clock` and
  bumps it, so successive reads are strictly increasing.
* The external collaborators are oracles passed as arguments:
  `FetchOutcome` is the result of `next(client.results(...))` together with
  `paper.download_pdf` (a `StopIteration` becomes `notFound`, any other
  exception becomes `fail msg`), and `ConvOutcome` is the result of
  `pymupdf4llm.to_markdown` plus the file write (`ok markdown` or
  `fail errMsg`).
* A JSON response payload is an ordered list of key/value pairs, so key
  presence (e.g. an `"error": null` member) is observable exactly as in the
  serialized JSON produced by `json.dumps`.
-/

namespace ArxivMcp

/-- A JSON value as it appears in the response payloads: a string, a
serialized timestamp (`datetime.isoformat()`), or `null`. -/
inductive JVal where
  | str : String → JVal
  | time : Nat → JVal
  | null : JVal
deriving DecidableEq, Repr

/-- The structured object serialized by `json.dumps`: an ordered list of
key/value members. -/
abbrev Payload := List (String × JVal)

/-- `ConversionStatus` dataclass (download.py lines 25-33): tracks the status
of a PDF to Markdown conversion. -/
structure ConversionStatus where
  paper_id : String
  status : String
  started_at : Nat
  completed_at : Option Nat := none
  error : Option String := none
deriving DecidableEq, Repr

/-- Python dict read `d.get(k)` on an association list. -/
def dictGet {α : Type} : List (String × α) → String → Option α
  | [], _ => none
  | (k', v) :: rest, k => if k' = k then some v else dictGet rest k

/-- Python dict write `d[k] = v`: replace in place if present, else append. -/
def dictSet {α : Type} : List (String × α) → String → α → List (String × α)
  | [], k, v => [(k, v)]
  | (k', v') :: rest, k, v =>
    if k' = k then (k', v) :: rest else (k', v') :: dictSet rest k v

/-- In-place mutation of the object stored under `k` (Python objects are
references, so `status.status = ...` mutates the entry in the dict). -/
def dictModify {α : Type} : List (String × α) → String → (α → α) → List (String × α)
  | [], _, _ => []
  | (k', v) :: rest, k, f =>
    if k' = k then (k', f v) :: rest else (k', v) :: dictModify rest k f

/-- The mutable process state: files under the storage root (path ↦
contents), the global `conversion_statuses` dict, and the clock. -/
structure World where
  files : List (String × String)
  statuses : List (String × ConversionStatus)
  clock : Nat
deriving DecidableEq, Repr

/-- `get_paper_path` (download.py lines 57-61): `<storage_root>/<paper_id><suffix>`.
The `mkdir` side effect does not touch any tracked file. -/
def get_paper_path (storage paper_id suffix : String) : String :=
  storage ++ "/" ++ paper_id ++ suffix

/-- Outcome of the remote fetch (`next(client.results(...))` followed by
`paper.download_pdf`): the PDF bytes, a `StopIteration` (no result for the
id), or any other raised exception with its string description. -/
inductive FetchOutcome where
  | found : String → FetchOutcome
  | notFound : FetchOutcome
  | fail : String → FetchOutcome
deriving DecidableEq, Repr

/-- Outcome of `pymupdf4llm.to_markdown` plus the markdown file write:
the produced markdown, or a raised exception's string description. -/
inductive ConvOutcome where
  | ok : String → ConvOutcome
  | fail : String → ConvOutcome
deriving DecidableEq, Repr

/-- The request arguments after schema handling: `paper_id` (required) and
`check_status` (default `False`). -/
structure Args where
  paper_id : String
  check_status : Bool := false
deriving DecidableEq, Repr

/-- Serialize an optional timestamp (`x.isoformat() if x else None`). -/
def optTimeJ : Option Nat → JVal
  | some t => JVal.time t
  | none => JVal.null

/-- Serialize an optional string (`None` becomes `null`). -/
def optStrJ : Option String → JVal
  | some s => JVal.str s
  | none => JVal.null

/-- Python `str` formatting of an optional string inside an f-string. -/
def optStr : Option String → String
  | some s => s
  | none => "None"

/-- `convert_pdf_to_markdown` (download.py lines 64-88).  On success the
markdown is written to the `.md` path, then the status entry (if any) is set
to `success` with `completed_at = now`.  On any failure the entry (if any) is
set to `error` with `completed_at = now` and `error = str(e)`.  A missing
entry makes the status update a no-op.  The function never raises. -/
def convert_pdf_to_markdown (storage : String) (conv : ConvOutcome)
    (paper_id : String) (w : World) : World :=
  match conv with
  | ConvOutcome.ok markdown =>
    let md_path := get_paper_path storage paper_id ".md"
    let w1 : World := { w with files := dictSet w.files md_path markdown }
    match dictGet w1.statuses paper_id with
    | some _ =>
      { w1 with
        statuses := dictModify w1.statuses paper_id
          (fun st => { st with status := "success", completed_at := some w1.clock }),
        clock := w1.clock + 1 }
    | none => w1
  | ConvOutcome.fail err =>
    match dictGet w.statuses paper_id with
    | some _ =>
      { w with
        statuses := dictModify w.statuses paper_id
          (fun st => { st with status := "error", completed_at := some w.clock,
                               error := some err }),
        clock := w.clock + 1 }
    | none => w

/-- `handle_download` (download.py lines 91-247), returning the JSON payload
of the single `TextContent` and the final process state.  Unreachable
`KeyError` / `AttributeError` faults land in the generic `except` branch,
mirroring the Python `try` wrapper. -/
def handle_download (storage : String) (fetch : FetchOutcome) (conv : ConvOutcome)
    (args : Args) (w : World) : Payload × World :=
  let paper_id := args.paper_id
  if args.check_status then
    match dictGet w.statuses paper_id with
    | none =>
      if (dictGet w.files (get_paper_path storage paper_id ".md")).isSome then
        ([("status", JVal.str "success"),
          ("message", JVal.str "Paper is ready"),
          ("resource_uri",
            JVal.str ("file://" ++ get_paper_path storage paper_id ".md"))], w)
      else
        ([("status", JVal.str "unknown"),
          ("message", JVal.str "No download or conversion in progress")], w)
    | some st =>
      ([("status", JVal.str st.status),
        ("started_at", JVal.time st.started_at),
        ("completed_at", optTimeJ st.completed_at),
        ("error", optStrJ st.error),
        ("message", JVal.str ("Paper conversion " ++ st.status))], w)
  else
    if (dictGet w.files (get_paper_path storage paper_id ".md")).isSome then
      ([("status", JVal.str "success"),
        ("message", JVal.str "Paper already available"),
        ("resource_uri",
          JVal.str ("file://" ++ get_paper_path storage paper_id ".md"))], w)
    else
      match dictGet w.statuses paper_id with
      | some st =>
        ([("status", JVal.str st.status),
          ("message", JVal.str ("Paper conversion " ++ st.status)),
          ("started_at", JVal.time st.started_at)], w)
      | none =>
        let pdf_path := get_paper_path storage paper_id ".pdf"
        let w1 : World :=
          { w with
            statuses := dictSet w.statuses paper_id
              { paper_id := paper_id, status := "downloading", started_at := w.clock },
            clock := w.clock + 1 }
        match fetch with
        | FetchOutcome.notFound =>
          ([("status", JVal.str "error"),
            ("message", JVal.str ("Paper " ++ paper_id ++ " not found on arXiv"))], w1)
        | FetchOutcome.fail msg =>
          ([("status", JVal.str "error"),
            ("message", JVal.str ("Error: " ++ msg))], w1)
        | FetchOutcome.found pdf =>
          let w2 : World := { w1 with files := dictSet w1.files pdf_path pdf }
          match dictGet w2.statuses paper_id with
          | none =>
            ([("status", JVal.str "error"),
              ("message", JVal.str ("Error: \x27" ++ paper_id ++ "\x27"))], w2)
          | some _ =>
            let w3 : World :=
              { w2 with
                statuses := dictModify w2.statuses paper_id
                  (fun st => { st with status := "converting" }) }
            let w4 := convert_pdf_to_markdown storage conv paper_id w3
            match dictGet w4.statuses paper_id with
            | none =>
              ([("status", JVal.str "error"),
                ("message", JVal.str ("Error: \x27" ++ paper_id ++ "\x27"))], w4)
            | some st =>
              if st.status = "success" then
                match st.completed_at with
                | some t =>
                  ([("status", JVal.str "success"),
                    ("message", JVal.str "Paper downloaded and converted successfully"),
                    ("resource_uri",
                      JVal.str ("file://" ++ get_paper_path storage paper_id ".md")),
                    ("started_at", JVal.time st.started_at),
                    ("completed_at", JVal.time t)], w4)
                | none =>
                  ([("status", JVal.str "error"),
                    ("message",
                      JVal.str "Error: \x27NoneType\x27 object has no attribute \x27isoformat\x27")], w4)
              else
                match st.completed_at with
                | some t =>
                  ([("status", JVal.str "error"),
                    ("message", JVal.str ("Conversion failed: " ++ optStr st.error)),
                    ("started_at", JVal.time st.started_at),
                    ("completed_at", JVal.time t),
                    ("error", optStrJ st.error)], w4)
                | none =>
                  ([("status", JVal.str "error"),
                    ("message",
                      JVal.str "Error: \x27NoneType\x27 object has no attribute \x27isoformat\x27")], w4)

/-- Spec §3 invariant on one status entry: `completed_at` is set iff the
phase is terminal, and `error` is set iff the phase is `error`. -/
def statusInv (st : ConversionStatus) : Prop :=
  (st.completed_at.isSome ↔ (st.status = "success" ∨ st.status = "error")) ∧
  (st.error.isSome ↔ st.status = "error")

instance (st : ConversionStatus) : Decidable (statusInv st) := by
  unfold statusInv; infer_instance

/-! ### Association-list lemmas -/

theorem dictGet_dictSet {α : Type} (d : List (String × α)) (k k' : String) (v : α) :
    dictGet (dictSet d k v) k' = if k = k' then some v else dictGet d k' := by
  induction d with
  | nil => simp [dictGet, dictSet]
  | cons hd tl ih =>
    obtain ⟨k0, v0⟩ := hd
    by_cases h0 : k0 = k
    · subst h0
      by_cases h1 : k0 = k' <;> simp [dictSet, dictGet, h1]
    · by_cases h1 : k0 = k'
      · subst h1
        have hk : ¬ k = k0 := fun h => h0 h.symm
        simp [dictSet, dictGet, h0, hk]
      · simp [dictSet, dictGet, h0, h1, ih]

theorem dictGet_dictModify {α : Type} (d : List (String × α)) (k k' : String)
    (f : α → α) :
    dictGet (dictModify d k f) k' =
      if k = k' then Option.map f (dictGet d k') else dictGet d k' := by
  induction d with
  | nil => simp [dictGet, dictModify]
  | cons hd tl ih =>
    obtain ⟨k0, v0⟩ := hd
    by_cases h0 : k0 = k
    · subst h0
      by_cases h1 : k0 = k' <;> simp [dictModify, dictGet, h1]
    · by_cases h1 : k0 = k'
      · subst h1
        have hk : ¬ k = k0 := fun h => h0 h.symm
        simp [dictModify, dictGet, h0, hk]
      · simp [dictModify, dictGet, h0, h1, ih]

theorem dictGet_dictSet_self {α : Type} (d : List (String × α)) (k : String) (v : α) :
    dictGet (dictSet d k v) k = some v := by
  simp [dictGet_dictSet]

theorem isSome_dictGet_dictSet {α : Type} (d : List (String × α)) (k k' : String)
    (v : α) (h : (dictGet d k').isSome) : (dictGet (dictSet d k v) k').isSome := by
  rw [dictGet_dictSet]
  by_cases hk : k = k' <;> simp [hk, h]

theorem dictModify_dictSet {α : Type} (d : List (String × α)) (k : String)
    (v : α) (f : α → α) : dictModify (dictSet d k v) k f = dictSet d k (f v) := by
  induction d with
  | nil => simp [dictSet, dictModify]
  | cons hd tl ih =>
    obtain ⟨k0, v0⟩ := hd
    by_cases h0 : k0 = k <;> simp [dictSet, dictModify, h0, ih]

/-! ### Claim theorems -/

/-- C1: a fetch-and-convert request for a new identifier whose remote lookup
yields no result returns the `"Paper <id> not found on arXiv"` error response,
and the `downloading` StatusStore entry created before the fetch is left
stranded: phase `downloading`, `completed_at` and `error` unset. -/
theorem c1_not_found_strands_downloading (storage : String) (conv : ConvOutcome)
    (args : Args) (w : World)
    (hcs : args.check_status = false)
    (hmd : dictGet w.files (get_paper_path storage args.paper_id ".md") = none)
    (hst : dictGet w.statuses args.paper_id = none) :
    (handle_download storage FetchOutcome.notFound conv args w).1 =
      [("status", JVal.str "error"),
       ("message", JVal.str ("Paper " ++ args.paper_id ++ " not found on arXiv"))] ∧
    dictGet (handle_download storage FetchOutcome.notFound conv args w).2.statuses
        args.paper_id =
      some { paper_id := args.paper_id, status := "downloading",
             started_at := w.clock, completed_at := none, error := none } := by
  unfold handle_download
  simp [hcs, hmd, hst, dictGet_dictSet_self]

/-- Closed instance of `c1_not_found_strands_downloading` at a concrete
request on the empty state. -/
theorem c1_witness :
    (handle_download "/s" FetchOutcome.notFound (ConvOutcome.ok "m")
        { paper_id := "9999.99999" } { files := [], statuses := [], clock := 0 }).1 =
      [("status", JVal.str "error"),
       ("message", JVal.str ("Paper " ++ "9999.99999" ++ " not found on arXiv"))] ∧
    dictGet (handle_download "/s" FetchOutcome.notFound (ConvOutcome.ok "m")
        { paper_id := "9999.99999" }
        { files := [], statuses := [], clock := 0 }).2.statuses "9999.99999" =
      some { paper_id := "9999.99999", status := "downloading",
             started_at := 0, completed_at := none, error := none } :=
  c1_not_found_strands_downloading "/s" (ConvOutcome.ok "m")
    { paper_id := "9999.99999" } { files := [], statuses := [], clock := 0 }
    rfl rfl rfl

/-- C2: a fetch-and-convert request on a new identifier whose conversion
succeeds returns status `success` with `resource_uri = "file://" ++ mdPath`,
the markdown file exists at that path afterwards, and the reported
`completed_at` is at least the reported `started_at`. -/
theorem c2_success_artifact_and_timestamps (storage pdf markdown : String)
    (args : Args) (w : World)
    (hcs : args.check_status = false)
    (hmd : dictGet w.files (get_paper_path storage args.paper_id ".md") = none)
    (hst : dictGet w.statuses args.paper_id = none) :
    dictGet (handle_download storage (FetchOutcome.found pdf)
        (ConvOutcome.ok markdown) args w).1 "status" = some (JVal.str "success") ∧
    dictGet (handle_download storage (FetchOutcome.found pdf)
        (ConvOutcome.ok markdown) args w).1 "resource_uri" =
      some (JVal.str ("file://" ++ get_paper_path storage args.paper_id ".md")) ∧
    dictGet (handle_download storage (FetchOutcome.found pdf)
        (ConvOutcome.ok markdown) args w).2.files
        (get_paper_path storage args.paper_id ".md") = some markdown ∧
    ∃ t0 t1,
      dictGet (handle_download storage (FetchOutcome.found pdf)
          (ConvOutcome.ok markdown) args w).1 "started_at" = some (JVal.time t0) ∧
      dictGet (handle_download storage (FetchOutcome.found pdf)
          (ConvOutcome.ok markdown) args w).1 "completed_at" = some (JVal.time t1) ∧
      t0 ≤ t1 := by
  unfold handle_download convert_pdf_to_markdown
  simp [hcs, hmd, hst, dictGet_dictSet_self, dictGet_dictModify, dictGet]

/-- Closed instance of `c2_success_artifact_and_timestamps` at a concrete
request on the empty state. -/
theorem c2_witness :
    dictGet (handle_download "/s" (FetchOutcome.found "PDF") (ConvOutcome.ok "MD")
        { paper_id := "1234.5678" } { files := [], statuses := [], clock := 0 }).1
        "status" = some (JVal.str "success") ∧
    dictGet (handle_download "/s" (FetchOutcome.found "PDF") (ConvOutcome.ok "MD")
        { paper_id := "1234.5678" } { files := [], statuses := [], clock := 0 }).1
        "resource_uri" =
      some (JVal.str ("file://" ++ get_paper_path "/s" "1234.5678" ".md")) ∧
    dictGet (handle_download "/s" (FetchOutcome.found "PDF") (ConvOutcome.ok "MD")
        { paper_id := "1234.5678" }
        { files := [], statuses := [], clock := 0 }).2.files
        (get_paper_path "/s" "1234.5678" ".md") = some "MD" ∧
    ∃ t0 t1,
      dictGet (handle_download "/s" (FetchOutcome.found "PDF") (ConvOutcome.ok "MD")
          { paper_id := "1234.5678" } { files := [], statuses := [], clock := 0 }).1
          "started_at" = some (JVal.time t0) ∧
      dictGet (handle_download "/s" (FetchOutcome.found "PDF") (ConvOutcome.ok "MD")
          { paper_id := "1234.5678" } { files := [], statuses := [], clock := 0 }).1
          "completed_at" = some (JVal.time t1) ∧
      t0 ≤ t1 :=
  c2_success_artifact_and_timestamps "/s" "PDF" "MD" { paper_id := "1234.5678" }
    { files := [], statuses := [], clock := 0 } rfl rfl rfl

/-- C3: a check-only request on an identifier with no StatusStore entry
returns `success` with a resource URI when the markdown file exists, and
otherwise `unknown` with "No download or conversion in progress"; the state
(in particular the StatusStore) is unchanged in both cases. -/
theorem c3_check_only_no_entry (storage : String) (fetch : FetchOutcome)
    (conv : ConvOutcome) (args : Args) (w : World)
    (hcs : args.check_status = true)
    (hst : dictGet w.statuses args.paper_id = none) :
    (handle_download storage fetch conv args w).2 = w ∧
    ((dictGet w.files (get_paper_path storage args.paper_id ".md")).isSome →
      (handle_download storage fetch conv args w).1 =
        [("status", JVal.str "success"),
         ("message", JVal.str "Paper is ready"),
         ("resource_uri",
           JVal.str ("file://" ++ get_paper_path storage args.paper_id ".md"))]) ∧
    (dictGet w.files (get_paper_path storage args.paper_id ".md") = none →
      (handle_download storage fetch conv args w).1 =
        [("status", JVal.str "unknown"),
         ("message", JVal.str "No download or conversion in progress")]) := by
  unfold handle_download
  by_cases hmd : (dictGet w.files (get_paper_path storage args.paper_id ".md")).isSome
  · have hne : dictGet w.files (get_paper_path storage args.paper_id ".md") ≠ none :=
      Option.isSome_iff_ne_none.mp hmd
    simp [hcs, hst, hmd, hne]
  · refine ⟨?_, ?_, ?_⟩ <;> simp [hcs, hst, hmd]

/-- Closed instance of `c3_check_only_no_entry` at a concrete request on the
empty state. -/
theorem c3_witness :
    (handle_download "/s" FetchOutcome.notFound (ConvOutcome.ok "m")
        { paper_id := "9999.99999", check_status := true }
        { files := [], statuses := [], clock := 0 }).2 =
      { files := [], statuses := [], clock := 0 } ∧
    ((dictGet ({ files := [], statuses := [], clock := 0 } : World).files
        (get_paper_path "/s" "9999.99999" ".md")).isSome →
      (handle_download "/s" FetchOutcome.notFound (ConvOutcome.ok "m")
          { paper_id := "9999.99999", check_status := true }
          { files := [], statuses := [], clock := 0 }).1 =
        [("status", JVal.str "success"),
         ("message", JVal.str "Paper is ready"),
         ("resource_uri",
           JVal.str ("file://" ++ get_paper_path "/s" "9999.99999" ".md"))]) ∧
    (dictGet ({ files := [], statuses := [], clock := 0 } : World).files
        (get_paper_path "/s" "9999.99999" ".md") = none →
      (handle_download "/s" FetchOutcome.notFound (ConvOutcome.ok "m")
          { paper_id := "9999.99999", check_status := true }
          { files := [], statuses := [], clock := 0 }).1 =
        [("status", JVal.str "unknown"),
         ("message", JVal.str "No download or conversion in progress")]) :=
  c3_check_only_no_entry "/s" FetchOutcome.notFound (ConvOutcome.ok "m")
    { paper_id := "9999.99999", check_status := true }
    { files := [], statuses := [], clock := 0 } rfl rfl

/-- C4: when the markdown artifact already exists, a fetch-and-convert
request returns `success` / "Paper already available" immediately with the
state untouched (no download, no conversion, no file write, no StatusStore
change), and a repeated such call — under any oracles — returns the same
response again. -/
theorem c4_already_available_idempotent (storage : String)
    (fetch fetch2 : FetchOutcome) (conv conv2 : ConvOutcome)
    (args : Args) (w : World)
    (hcs : args.check_status = false)
    (hmd : (dictGet w.files (get_paper_path storage args.paper_id ".md")).isSome) :
    handle_download storage fetch conv args w =
      ([("status", JVal.str "success"),
        ("message", JVal.str "Paper already available"),
        ("resource_uri",
          JVal.str ("file://" ++ get_paper_path storage args.paper_id ".md"))], w) ∧
    handle_download storage fetch2 conv2 args
        (handle_download storage fetch conv args w).2 =
      ([("status", JVal.str "success"),
        ("message", JVal.str "Paper already available"),
        ("resource_uri",
          JVal.str ("file://" ++ get_paper_path storage args.paper_id ".md"))], w) := by
  have h1 : handle_download storage fetch conv args w =
      ([("status", JVal.str "success"),
        ("message", JVal.str "Paper already available"),
        ("resource_uri",
          JVal.str ("file://" ++ get_paper_path storage args.paper_id ".md"))], w) := by
    unfold handle_download
    simp [hcs, hmd]
  have h2 : handle_download storage fetch2 conv2 args w =
      ([("status", JVal.str "success"),
        ("message", JVal.str "Paper already available"),
        ("resource_uri",
          JVal.str ("file://" ++ get_paper_path storage args.paper_id ".md"))], w) := by
    unfold handle_download
    simp [hcs, hmd]
  exact ⟨h1, by rw [h1]; exact h2⟩

/-- Closed instance of `c4_already_available_idempotent` at a concrete state
that already holds the artifact. -/
theorem c4_witness :
    handle_download "/s" (FetchOutcome.found "PDF") (ConvOutcome.ok "MD")
        { paper_id := "1234.5678" }
        { files := [("/s/1234.5678.md", "old")], statuses := [], clock := 5 } =
      ([("status", JVal.str "success"),
        ("message", JVal.str "Paper already available"),
        ("resource_uri",
          JVal.str ("file://" ++ get_paper_path "/s" "1234.5678" ".md"))],
       { files := [("/s/1234.5678.md", "old")], statuses := [], clock := 5 }) ∧
    handle_download "/s" FetchOutcome.notFound (ConvOutcome.fail "e")
        { paper_id := "1234.5678" }
        (handle_download "/s" (FetchOutcome.found "PDF") (ConvOutcome.ok "MD")
          { paper_id := "1234.5678" }
          { files := [("/s/1234.5678.md", "old")], statuses := [], clock := 5 }).2 =
      ([("status", JVal.str "success"),
        ("message", JVal.str "Paper already available"),
        ("resource_uri",
          JVal.str ("file://" ++ get_paper_path "/s" "1234.5678" ".md"))],
       { files := [("/s/1234.5678.md", "old")], statuses := [], clock := 5 }) :=
  c4_already_available_idempotent "/s" (FetchOutcome.found "PDF")
    FetchOutcome.notFound (ConvOutcome.ok "MD") (ConvOutcome.fail "e")
    { paper_id := "1234.5678" }
    { files := [("/s/1234.5678.md", "old")], statuses := [], clock := 5 }
    rfl (by decide)

/-- C5: a fetch-and-convert request on an identifier that already has a
StatusStore entry (and no markdown artifact) returns that entry's current
phase and `started_at` immediately, for any fetch/conversion oracle, leaving
the state untouched. -/
theorem c5_in_flight_reports_phase (storage : String) (fetch : FetchOutcome)
    (conv : ConvOutcome) (args : Args) (w : World) (st : ConversionStatus)
    (hcs : args.check_status = false)
    (hmd : dictGet w.files (get_paper_path storage args.paper_id ".md") = none)
    (hst : dictGet w.statuses args.paper_id = some st) :
    handle_download storage fetch conv args w =
      ([("status", JVal.str st.status),
        ("message", JVal.str ("Paper conversion " ++ st.status)),
        ("started_at", JVal.time st.started_at)], w) := by
  unfold handle_download
  simp [hcs, hmd, hst]

/-- Closed instance of `c5_in_flight_reports_phase` at a concrete in-flight
entry. -/
theorem c5_witness :
    handle_download "/s" (FetchOutcome.found "PDF") (ConvOutcome.ok "MD")
        { paper_id := "a" }
        { files := [],
          statuses := [("a",
            { paper_id := "a", status := "downloading", started_at := 3 })],
          clock := 4 } =
      ([("status", JVal.str "downloading"),
        ("message", JVal.str ("Paper conversion " ++ "downloading")),
        ("started_at", JVal.time 3)],
       { files := [],
         statuses := [("a",
           { paper_id := "a", status := "downloading", started_at := 3 })],
         clock := 4 }) :=
  c5_in_flight_reports_phase "/s" (FetchOutcome.found "PDF") (ConvOutcome.ok "MD")
    { paper_id := "a" }
    { files := [],
      statuses := [("a",
        { paper_id := "a", status := "downloading", started_at := 3 })],
      clock := 4 }
    { paper_id := "a", status := "downloading", started_at := 3 }
    rfl rfl rfl

/-- C6: the Converter is a total function (it never propagates a fault).
With a status entry present: on success it writes the markdown to the
resolved `.md` path and sets the entry to phase `success` with
`completed_at` set; on failure it sets the entry to phase `error` with
`completed_at` set and `error` equal to the failure description.  With no
entry present the status update is skipped: on success only the file is
written, on failure nothing changes at all. -/
theorem c6_converter_updates_status (storage paper_id markdown err : String)
    (w : World) :
    ((dictGet w.statuses paper_id).isSome →
      dictGet (convert_pdf_to_markdown storage (ConvOutcome.ok markdown)
          paper_id w).files (get_paper_path storage paper_id ".md") =
        some markdown ∧
      ∃ st', dictGet (convert_pdf_to_markdown storage (ConvOutcome.ok markdown)
          paper_id w).statuses paper_id = some st' ∧
        st'.status = "success" ∧ st'.completed_at = some w.clock) ∧
    ((dictGet w.statuses paper_id).isSome →
      ∃ st', dictGet (convert_pdf_to_markdown storage (ConvOutcome.fail err)
          paper_id w).statuses paper_id = some st' ∧
        st'.status = "error" ∧ st'.completed_at = some w.clock ∧
        st'.error = some err) ∧
    (dictGet w.statuses paper_id = none →
      (convert_pdf_to_markdown storage (ConvOutcome.ok markdown)
          paper_id w).statuses = w.statuses ∧
      dictGet (convert_pdf_to_markdown storage (ConvOutcome.ok markdown)
          paper_id w).files (get_paper_path storage paper_id ".md") =
        some markdown ∧
      convert_pdf_to_markdown storage (ConvOutcome.fail err) paper_id w = w) := by
  unfold convert_pdf_to_markdown
  refine ⟨fun h => ?_, fun h => ?_, fun h => ?_⟩
  · obtain ⟨st, hst⟩ := Option.isSome_iff_exists.mp h
    simp [hst, dictGet_dictSet_self, dictGet_dictModify]
  · obtain ⟨st, hst⟩ := Option.isSome_iff_exists.mp h
    simp [hst, dictGet_dictModify]
  · simp [h, dictGet_dictSet_self]

/-- Closed instance of `c6_converter_updates_status` at a concrete state
holding a `converting` entry. -/
theorem c6_witness :
    ∃ st', dictGet (convert_pdf_to_markdown "/s" (ConvOutcome.fail "boom") "a"
        { files := [("/s/a.pdf", "PDF")],
          statuses := [("a",
            { paper_id := "a", status := "converting", started_at := 0 })],
          clock := 1 }).statuses "a" = some st' ∧
      st'.status = "error" ∧ st'.completed_at = some 1 ∧
      st'.error = some "boom" :=
  (c6_converter_updates_status "/s" "a" "MD" "boom"
    { files := [("/s/a.pdf", "PDF")],
      statuses := [("a",
        { paper_id := "a", status := "converting", started_at := 0 })],
      clock := 1 }).2.1 (by decide)

/-- The final file map of any request is the initial one, or the initial one
plus the downloaded PDF, or plus the PDF and the markdown artifact — no
branch ever removes a key. -/
theorem handle_download_files_characterization (storage : String)
    (fetch : FetchOutcome) (conv : ConvOutcome) (args : Args) (w : World) :
    (handle_download storage fetch conv args w).2.files = w.files ∨
    (∃ pdf, (handle_download storage fetch conv args w).2.files =
        dictSet w.files (get_paper_path storage args.paper_id ".pdf") pdf) ∨
    (∃ pdf markdown, (handle_download storage fetch conv args w).2.files =
        dictSet (dictSet w.files (get_paper_path storage args.paper_id ".pdf") pdf)
          (get_paper_path storage args.paper_id ".md") markdown) := by
  unfold handle_download convert_pdf_to_markdown
  by_cases hcs : args.check_status
  · cases hst : dictGet w.statuses args.paper_id <;>
      by_cases hmd : (dictGet w.files (get_paper_path storage args.paper_id ".md")).isSome <;>
      simp [hcs, hst, hmd]
  · by_cases hmd : (dictGet w.files (get_paper_path storage args.paper_id ".md")).isSome
    · simp [hcs, hmd]
    · cases hst : dictGet w.statuses args.paper_id with
      | some st => simp [hcs, hmd, hst]
      | none =>
        cases fetch with
        | notFound => simp [hcs, hmd, hst]
        | fail msg => simp [hcs, hmd, hst]
        | found pdf =>
          cases conv with
          | ok markdown =>
            simp [hcs, hmd, hst, dictGet_dictSet_self, dictGet_dictModify]
            exact Or.inr (Or.inr ⟨pdf, markdown, rfl⟩)
          | fail err =>
            simp [hcs, hmd, hst, dictGet_dictSet_self, dictGet_dictModify]

/-- The final status map of any request is the initial one, or — only when
the identifier had no entry — the initial one extended at the identifier with
an entry whose `started_at` is the creation time and which satisfies the
status invariant. -/
theorem handle_download_statuses_characterization (storage : String)
    (fetch : FetchOutcome) (conv : ConvOutcome) (args : Args) (w : World) :
    (handle_download storage fetch conv args w).2.statuses = w.statuses ∨
    (dictGet w.statuses args.paper_id = none ∧
     ∃ st', (handle_download storage fetch conv args w).2.statuses =
         dictSet w.statuses args.paper_id st' ∧
       st'.started_at = w.clock ∧ statusInv st') := by
  unfold handle_download convert_pdf_to_markdown
  by_cases hcs : args.check_status
  · cases hst : dictGet w.statuses args.paper_id <;>
      by_cases hmd : (dictGet w.files (get_paper_path storage args.paper_id ".md")).isSome <;>
      simp [hcs, hst, hmd]
  · by_cases hmd : (dictGet w.files (get_paper_path storage args.paper_id ".md")).isSome
    · simp [hcs, hmd]
    · cases hst : dictGet w.statuses args.paper_id with
      | some st => simp [hcs, hmd, hst]
      | none =>
        cases fetch with
        | notFound =>
          simp only [hcs, hmd, hst]
          simp
          exact Or.inr ⟨_, rfl, rfl, by simp [statusInv]⟩
        | fail msg =>
          simp only [hcs, hmd, hst]
          simp
          exact Or.inr ⟨_, rfl, rfl, by simp [statusInv]⟩
        | found pdf =>
          cases conv with
          | ok markdown =>
            simp only [hcs, hmd, hst]
            simp [dictGet_dictSet_self, dictGet_dictModify, dictModify_dictSet]
            exact Or.inr ⟨_, rfl, rfl, by simp [statusInv]⟩
          | fail err =>
            simp only [hcs, hmd, hst]
            simp [dictGet_dictSet_self, dictGet_dictModify, dictModify_dictSet]
            exact Or.inr ⟨_, rfl, rfl, by simp [statusInv]⟩

/-- Where the `error` member of a response can come from: either it is
absent, or the response's status is the literal `"error"`, or the request was
a status check on an existing entry and the member mirrors that entry's
`error` field (with the entry's phase as the reported status). -/
theorem handle_download_error_field (storage : String) (fetch : FetchOutcome)
    (conv : ConvOutcome) (args : Args) (w : World) :
    dictGet (handle_download storage fetch conv args w).1 "error" = none ∨
    dictGet (handle_download storage fetch conv args w).1 "status" =
      some (JVal.str "error") ∨
    (∃ st, dictGet w.statuses args.paper_id = some st ∧
      dictGet (handle_download storage fetch conv args w).1 "error" =
        some (optStrJ st.error) ∧
      dictGet (handle_download storage fetch conv args w).1 "status" =
        some (JVal.str st.status)) := by
  unfold handle_download convert_pdf_to_markdown
  by_cases hcs : args.check_status
  · cases hst : dictGet w.statuses args.paper_id with
    | some st =>
      refine Or.inr (Or.inr ⟨st, rfl, ?_, ?_⟩) <;> simp [hcs, hst, dictGet]
    | none =>
      by_cases hmd : (dictGet w.files (get_paper_path storage args.paper_id ".md")).isSome <;>
        exact Or.inl (by simp [hcs, hst, hmd, dictGet])
  · by_cases hmd : (dictGet w.files (get_paper_path storage args.paper_id ".md")).isSome
    · exact Or.inl (by simp [hcs, hmd, dictGet])
    · cases hst : dictGet w.statuses args.paper_id with
      | some st => exact Or.inl (by simp [hcs, hmd, hst, dictGet])
      | none =>
        cases fetch with
        | notFound => exact Or.inl (by simp [hcs, hmd, hst, dictGet])
        | fail msg => exact Or.inl (by simp [hcs, hmd, hst, dictGet])
        | found pdf =>
          cases conv with
          | ok markdown =>
            exact Or.inl (by
              simp [hcs, hmd, hst, dictGet, dictGet_dictSet_self,
                dictGet_dictModify, dictModify_dictSet])
          | fail err =>
            exact Or.inr (Or.inl (by
              simp [hcs, hmd, hst, dictGet, dictGet_dictSet_self,
                dictGet_dictModify, dictModify_dictSet]))

/-- C7: every request preserves the per-entry invariant — `completed_at` set
iff the phase is `success` or `error`, `error` set iff the phase is `error` —
and never modifies an existing entry's `started_at`; an entry present after
the request but not before was created with `started_at` equal to the clock
at creation time. -/
theorem c7_invariant_preserved (storage : String) (fetch : FetchOutcome)
    (conv : ConvOutcome) (args : Args) (w : World)
    (hinv : ∀ pid st, dictGet w.statuses pid = some st → statusInv st) :
    ∀ pid st', dictGet (handle_download storage fetch conv args w).2.statuses pid =
        some st' →
      statusInv st' ∧
      (∀ st, dictGet w.statuses pid = some st → st'.started_at = st.started_at) ∧
      (dictGet w.statuses pid = none → st'.started_at = w.clock) := by
  intro pid st' h
  rcases handle_download_statuses_characterization storage fetch conv args w with
    hch | ⟨hnone, st0, hset, hstart, hinv0⟩
  · rw [hch] at h
    refine ⟨hinv pid st' h, fun st hst => ?_, fun hn => ?_⟩
    · rw [hst] at h
      cases h
      rfl
    · rw [hn] at h
      cases h
  · rw [hset, dictGet_dictSet] at h
    by_cases hpid : args.paper_id = pid
    · rw [if_pos hpid] at h
      obtain rfl := Option.some.inj h
      subst hpid
      exact ⟨hinv0, fun st hst => absurd (hnone.symm.trans hst) (by simp),
        fun _ => hstart⟩
    · rw [if_neg hpid] at h
      refine ⟨hinv pid st' h, fun st hst => ?_, fun hn => ?_⟩
      · rw [hst] at h
        cases h
        rfl
      · rw [hn] at h
        cases h

/-- Closed instance of `c7_invariant_preserved`: the entry created by a
not-found fetch on the empty state satisfies the invariant. -/
theorem c7_witness :
    statusInv { paper_id := "9999.99999", status := "downloading",
                started_at := 0, completed_at := none, error := none } :=
  (c7_invariant_preserved "/s" FetchOutcome.notFound (ConvOutcome.ok "m")
    { paper_id := "9999.99999" } { files := [], statuses := [], clock := 0 }
    (by intro pid st h; simp [dictGet] at h)
    "9999.99999"
    { paper_id := "9999.99999", status := "downloading", started_at := 0 }
    (by rfl)).1

/-- C8: every request produces a structured payload with a string `status`
and a string `message` member (no fault propagates to the caller), and a
fault raised inside the fetch of a fresh download is reported with status
`error`. -/
theorem c8_wellformed_response (storage : String) (fetch : FetchOutcome)
    (conv : ConvOutcome) (args : Args) (w : World) :
    (∃ s, dictGet (handle_download storage fetch conv args w).1 "status" =
        some (JVal.str s)) ∧
    (∃ m, dictGet (handle_download storage fetch conv args w).1 "message" =
        some (JVal.str m)) ∧
    (args.check_status = false →
      dictGet w.files (get_paper_path storage args.paper_id ".md") = none →
      dictGet w.statuses args.paper_id = none →
      (∀ msg, fetch = FetchOutcome.fail msg →
        dictGet (handle_download storage fetch conv args w).1 "status" =
          some (JVal.str "error")) ∧
      (∀ pdf err, fetch = FetchOutcome.found pdf → conv = ConvOutcome.fail err →
        dictGet (handle_download storage fetch conv args w).1 "status" =
          some (JVal.str "error"))) := by
  unfold handle_download convert_pdf_to_markdown
  by_cases hcs : args.check_status
  · have hfalse : ¬ args.check_status = false := by simp [hcs]
    cases hst : dictGet w.statuses args.paper_id with
    | some st =>
      exact ⟨⟨st.status, by simp [hcs, hst, dictGet]⟩,
        ⟨"Paper conversion " ++ st.status, by simp [hcs, hst, dictGet]⟩,
        fun hc => absurd hc hfalse⟩
    | none =>
      by_cases hmd : (dictGet w.files (get_paper_path storage args.paper_id ".md")).isSome
      · exact ⟨⟨"success", by simp [hcs, hst, hmd, dictGet]⟩,
          ⟨"Paper is ready", by simp [hcs, hst, hmd, dictGet]⟩,
          fun hc => absurd hc hfalse⟩
      · exact ⟨⟨"unknown", by simp [hcs, hst, hmd, dictGet]⟩,
          ⟨"No download or conversion in progress", by simp [hcs, hst, hmd, dictGet]⟩,
          fun hc => absurd hc hfalse⟩
  · by_cases hmd : (dictGet w.files (get_paper_path storage args.paper_id ".md")).isSome
    · have hne : dictGet w.files (get_paper_path storage args.paper_id ".md") ≠ none :=
        Option.isSome_iff_ne_none.mp hmd
      exact ⟨⟨"success", by simp [hcs, hmd, dictGet]⟩,
        ⟨"Paper already available", by simp [hcs, hmd, dictGet]⟩,
        fun _ hmd2 => absurd hmd2 hne⟩
    · cases hst : dictGet w.statuses args.paper_id with
      | some st =>
        exact ⟨⟨st.status, by simp [hcs, hmd, hst, dictGet]⟩,
          ⟨"Paper conversion " ++ st.status, by simp [hcs, hmd, hst, dictGet]⟩,
          fun _ _ hst2 => absurd hst2 (by simp)⟩
      | none =>
        cases fetch with
        | notFound =>
          exact ⟨⟨"error", by simp [hcs, hmd, hst, dictGet]⟩,
            ⟨"Paper " ++ args.paper_id ++ " not found on arXiv",
              by simp [hcs, hmd, hst, dictGet]⟩,
            fun _ _ _ => ⟨fun msg hmsg => (by cases hmsg),
              fun pdf err hf _ => (by cases hf)⟩⟩
        | fail msg =>
          exact ⟨⟨"error", by simp [hcs, hmd, hst, dictGet]⟩,
            ⟨"Error: " ++ msg, by simp [hcs, hmd, hst, dictGet]⟩,
            fun _ _ _ => ⟨fun msg2 hmsg => (by simp [hcs, hmd, hst, dictGet]),
              fun pdf err hf _ => (by cases hf)⟩⟩
        | found pdf =>
          cases conv with
          | ok markdown =>
            exact ⟨⟨"success", by
                simp [hcs, hmd, hst, dictGet, dictGet_dictSet_self,
                  dictGet_dictModify, dictModify_dictSet]⟩,
              ⟨"Paper downloaded and converted successfully", by
                simp [hcs, hmd, hst, dictGet, dictGet_dictSet_self,
                  dictGet_dictModify, dictModify_dictSet]⟩,
              fun _ _ _ => ⟨fun msg hmsg => (by cases hmsg),
                fun pdf2 err hf hc => (by cases hc)⟩⟩
          | fail err =>
            exact ⟨⟨"error", by
                simp [hcs, hmd, hst, dictGet, dictGet_dictSet_self,
                  dictGet_dictModify, dictModify_dictSet]⟩,
              ⟨"Conversion failed: " ++ err, by
                simp [hcs, hmd, hst, dictGet, optStr, dictGet_dictSet_self,
                  dictGet_dictModify, dictModify_dictSet]⟩,
              fun _ _ _ => ⟨fun msg hmsg => (by cases hmsg),
                fun pdf2 err2 hf hc => (by
                  simp [hcs, hmd, hst, dictGet, dictGet_dictSet_self,
                    dictGet_dictModify, dictModify_dictSet])⟩⟩

/-- Closed instance of `c8_wellformed_response`: a raised fetch fault is
reported as a status `error` response. -/
theorem c8_witness :
    dictGet (handle_download "/s" (FetchOutcome.fail "network down")
        (ConvOutcome.ok "m") { paper_id := "a" }
        { files := [], statuses := [], clock := 0 }).1 "status" =
      some (JVal.str "error") :=
  (c8_wellformed_response "/s" (FetchOutcome.fail "network down")
    (ConvOutcome.ok "m") { paper_id := "a" }
    { files := [], statuses := [], clock := 0 }).2.2 rfl rfl rfl
    |>.1 "network down" rfl

/-- C9 counterexample: a status check on an identifier whose entry is at
phase `downloading` yields a response whose serialized JSON object contains
an `error` member (with value `null`) although the status is not `error`. -/
theorem c9_counterexample :
    dictGet (handle_download "/s" FetchOutcome.notFound (ConvOutcome.ok "m")
        { paper_id := "a", check_status := true }
        { files := [],
          statuses := [("a",
            { paper_id := "a", status := "downloading", started_at := 0 })],
          clock := 1 }).1 "status" = some (JVal.str "downloading") ∧
    dictGet (handle_download "/s" FetchOutcome.notFound (ConvOutcome.ok "m")
        { paper_id := "a", check_status := true }
        { files := [],
          statuses := [("a",
            { paper_id := "a", status := "downloading", started_at := 0 })],
          clock := 1 }).1 "error" = some JVal.null := by
  exact ⟨rfl, rfl⟩

/-- C9 amended: assuming every stored entry satisfies the status invariant,
an `error` member carrying a string (non-null) value appears in a response
only when the response status is `error`; status-check responses on an
existing entry always carry an `error` member, which is `null` for
non-terminal phases. -/
theorem c9_amended_error_string_only_on_error (storage : String)
    (fetch : FetchOutcome) (conv : ConvOutcome) (args : Args) (w : World)
    (hinv : ∀ pid st, dictGet w.statuses pid = some st → statusInv st) :
    ∀ e, dictGet (handle_download storage fetch conv args w).1 "error" =
        some (JVal.str e) →
      dictGet (handle_download storage fetch conv args w).1 "status" =
        some (JVal.str "error") := by
  intro e h
  rcases handle_download_error_field storage fetch conv args w with
    hnone | hstat | ⟨st, hst, herr, hstatus⟩
  · rw [hnone] at h
    cases h
  · exact hstat
  · rw [herr] at h
    obtain hval := Option.some.inj h
    have herr2 : st.error = some e := by
      cases he : st.error with
      | none =>
        rw [he] at hval
        simp [optStrJ] at hval
      | some v =>
        rw [he] at hval
        simp only [optStrJ, JVal.str.injEq] at hval
        rw [hval]
    have hs : st.status = "error" :=
      ((hinv args.paper_id st hst).2).mp (by simp [herr2])
    rw [hstatus, hs]

/-- Closed instance of `c9_amended_error_string_only_on_error` on a store
holding a terminal `error` entry. -/
theorem c9_amended_witness :
    dictGet (handle_download "/s" FetchOutcome.notFound (ConvOutcome.ok "m")
        { paper_id := "a", check_status := true }
        { files := [],
          statuses := [("a",
            { paper_id := "a", status := "error", started_at := 0,
              completed_at := some 1, error := some "boom" })],
          clock := 2 }).1 "status" = some (JVal.str "error") :=
  c9_amended_error_string_only_on_error "/s" FetchOutcome.notFound
    (ConvOutcome.ok "m") { paper_id := "a", check_status := true }
    { files := [],
      statuses := [("a",
        { paper_id := "a", status := "error", started_at := 0,
          completed_at := some 1, error := some "boom" })],
      clock := 2 }
    (by
      intro pid st h
      simp only [dictGet] at h
      split at h
      · cases h
        decide
      · cases h)
    "boom" rfl

/-- C10: no request ever removes a file — every file present before is
present after, the Converter alone also removes nothing, and after a
fetch-and-convert on a fresh identifier whose fetch succeeded the downloaded
`.pdf` is present regardless of the conversion outcome (the "clean up PDF"
comment in the code has no accompanying deletion). -/
theorem c10_files_never_deleted (storage : String) (fetch : FetchOutcome)
    (conv : ConvOutcome) (args : Args) (w : World) :
    (∀ p, (dictGet w.files p).isSome →
      (dictGet (handle_download storage fetch conv args w).2.files p).isSome) ∧
    (∀ p, (dictGet w.files p).isSome →
      (dictGet (convert_pdf_to_markdown storage conv args.paper_id w).files p).isSome) ∧
    (args.check_status = false →
      dictGet w.files (get_paper_path storage args.paper_id ".md") = none →
      dictGet w.statuses args.paper_id = none →
      ∀ pdf, fetch = FetchOutcome.found pdf →
        (dictGet (handle_download storage fetch conv args w).2.files
          (get_paper_path storage args.paper_id ".pdf")).isSome) := by
  refine ⟨fun p hp => ?_, fun p hp => ?_, fun hcs hmd hst pdf hf => ?_⟩
  · rcases handle_download_files_characterization storage fetch conv args w with
      hch | ⟨pdf, hch⟩ | ⟨pdf, markdown, hch⟩
    · rw [hch]; exact hp
    · rw [hch]; exact isSome_dictGet_dictSet _ _ _ _ hp
    · rw [hch]
      exact isSome_dictGet_dictSet _ _ _ _ (isSome_dictGet_dictSet _ _ _ _ hp)
  · unfold convert_pdf_to_markdown
    cases conv with
    | ok markdown =>
      cases hs : dictGet w.statuses args.paper_id <;>
        simp [hs] <;> exact isSome_dictGet_dictSet _ _ _ _ hp
    | fail err =>
      cases hs : dictGet w.statuses args.paper_id <;> simp [hs, hp]
  · subst hf
    unfold handle_download convert_pdf_to_markdown
    cases conv with
    | ok markdown =>
      simp [hcs, hmd, hst, dictGet_dictSet_self, dictGet_dictModify,
        dictModify_dictSet, dictGet_dictSet]
      split <;> rfl
    | fail err =>
      simp [hcs, hmd, hst, dictGet_dictSet_self, dictGet_dictModify,
        dictModify_dictSet, dictGet_dictSet]

/-- Closed instance of `c10_files_never_deleted`: the downloaded PDF is
still present after a failed conversion. -/
theorem c10_witness :
    (dictGet (handle_download "/s" (FetchOutcome.found "PDF")
        (ConvOutcome.fail "boom") { paper_id := "a" }
        { files := [], statuses := [], clock := 0 }).2.files
      (get_paper_path "/s" "a" ".pdf")).isSome :=
  (c10_files_never_deleted "/s" (FetchOutcome.found "PDF")
    (ConvOutcome.fail "boom") { paper_id := "a" }
    { files := [], statuses := [], clock := 0 }).2.2 rfl rfl rfl "PDF" rfl

end ArxivMcp
